import Mathlib

/-!
Verification of the company data aggregation layer
(`src/js/companyData.js`, class `CompanyDataManager`).

The JavaScript code is shallowly embedded: Appwrite documents become
structures whose possibly-absent fields are `Option`-valued (a JS
`undefined` field is `none`); the JS truthiness-based `||` fallbacks are
embedded by explicit helpers that treat `none`, the empty string and
`false` as falsy; `Math.random()` is threaded through the merge as an
explicit stream `rnd : Nat → ℚ` (the i-th call to the generator yields
`rnd i`); the remote database is an explicit `StoreBehavior` whose six
collection reads each either succeed with a list of documents or fail,
and whose fan-in primitive (`Promise.all`) may itself fail.
-/

namespace Phluowise

/-- A record of the `company_tb` collection.  `docId` is the Appwrite
document id (`$id`); the business fields may be absent. -/
structure Company where
  docId : String
  company_id : Option String
  name : Option String
  email : Option String
  deriving DecidableEq, Inhabited, Repr

/-- A record of the `branches` collection, with the fields the merge
reads. -/
structure Branch where
  docId : String
  branch_id : Option String
  company_id : Option String
  branch_name : Option String
  email : Option String
  phone_number : Option String
  location : Option String
  description : Option String
  website : Option String
  is_online : Option Bool
  is_active : Option Bool
  profile_image : Option String
  header_image : Option String
  branch_type : Option String
  deriving DecidableEq, Inhabited, Repr

/-- A record of the working-days collection; the merge only reads its
two scope keys, `docId` stands for the rest of the payload. -/
structure WorkingDay where
  docId : String
  branch_id : Option String
  company_id : Option String
  deriving DecidableEq, Inhabited, Repr

/-- A record of the products collection. -/
structure Product where
  docId : String
  branch_id : Option String
  company_id : Option String
  product_image : Option String
  deriving DecidableEq, Inhabited, Repr

/-- A record of the social-media collection. -/
structure SocialMediaLink where
  docId : String
  branch_id : Option String
  company_id : Option String
  deriving DecidableEq, Inhabited, Repr

/-- A record of the company-verification collection, with every
field-name spelling the code probes. -/
structure Verification where
  docId : String
  company_id : Option String
  companyId : Option String
  companyID : Option String
  company : Option String
  status : Option String
  verification_status : Option String
  verificationStatus : Option String
  deriving DecidableEq, Inhabited, Repr

/-- JS `a || b` on two possibly-absent string fields: `a` wins unless it
is absent or the empty string (both falsy in JS). -/
def jsOrString (a b : Option String) : Option String :=
  match a with
  | some s => if s = "" then b else some s
  | none => b

/-- JS `a || d` where `d` is a string literal default: the result is
always a string. -/
def jsOrDefault (a : Option String) (d : String) : String :=
  match a with
  | some s => if s = "" then d else s
  | none => d

/-- JS `a || false` on a possibly-absent boolean field. -/
def jsOrFalse (a : Option Bool) : Bool := a.getD false

/-- Geographic coordinates; the JS numbers are embedded as rationals. -/
structure Coordinates where
  lat : ℚ
  lng : ℚ
  deriving DecidableEq, Inhabited, Repr

/-- The hardcoded location lookup table of `generateCoordinates`
(companyData.js lines 246-253). -/
def locationCoords (location : String) : Option Coordinates :=
  if location = ("Accra, Ghana") then some ⟨5.6037, -0.1870⟩
  else if location = ("Tema, Ghana") then some ⟨5.6699, -0.0166⟩
  else if location = ("Kumasi, Ghana") then some ⟨6.6885, -1.6244⟩
  else if location = ("Takoradi, Ghana") then some ⟨4.8845, -1.7554⟩
  else if location = ("Cape Coast, Ghana") then some ⟨5.1036, -1.2466⟩
  else if location = ("Ho, Ghana") then some ⟨6.6000, 0.4700⟩
  else none

/-- Embedding of `generateCoordinates(location)` (lines 245-259): a
table hit returns the table entry; otherwise the base coordinate is
jittered by `(Math.random() - 0.5) * 2` in each component, the two
generator draws being passed in as `r1`, `r2`. -/
def generateCoordinates (location : Option String) (r1 r2 : ℚ) : Coordinates :=
  match location.bind locationCoords with
  | some c => c
  | none => ⟨5.6037 + (r1 - 0.5) * 2, -0.1870 + (r2 - 0.5) * 2⟩

/-- The fixed candidate list of `generateTimeText` (lines 262-265). -/
def timeTexts : List String :=
  ["10 minutes away", "15 minutes away", "20 minutes away", "25 minutes away", "30 minutes away"]

/-- Embedding of `generateTimeText()` (lines 262-265): indexes `timeTexts` with
`Math.floor(r * 5)`, the draw `r` passed in explicitly. -/
def generateTimeText (r : ℚ) : String :=
  timeTexts.getD (Int.toNat ⌊r * 5⌋) ("")

/-- The slice of `window.appwriteConfig` that `getProductImageUrl`
reads: the project id and, when configured, `BUCKETS.PRODUCTS`. -/
structure AppwriteConfig where
  PROJECT_ID : String
  BUCKETS_PRODUCTS : Option String
  deriving DecidableEq, Inhabited, Repr

/-- Embedding of `getProductImageUrl(imagePath)` (lines 390-406): empty for a falsy
path, pass-through for an absolute URL, otherwise composed from the
configured bucket with a hardcoded bucket-id fallback. -/
def getProductImageUrl (cfg : AppwriteConfig) (imagePath : Option String) : String :=
  match imagePath with
  | none => ""
  | some p =>
    if p = "" then ""
    else if p.startsWith ("http") then p
    else
      match cfg.BUCKETS_PRODUCTS with
      | some bucket =>
        ("https://nyc.cloud.appwrite.io/v1/storage/buckets/") ++ bucket ++ ("/files/") ++ p
          ++ ("/view?project=") ++ cfg.PROJECT_ID
      | none =>
        ("https://nyc.cloud.appwrite.io/v1/storage/buckets/68b1c57b001542be7fbe/files/") ++ p
          ++ ("/view?project=") ++ cfg.PROJECT_ID

/-- A product as it appears inside a merged view: the spread
`{...product, image: getProductImageUrl(...)}` of line 227-230. -/
structure MergedProduct where
  product : Product
  image : String
  deriving DecidableEq, Inhabited, Repr

/-- The derived per-branch view built by `mergeCompanyAndBranchData`
(lines 208-235). -/
structure MergedCompanyView where
  id : String
  branch_id : Option String
  company_id : Option String
  name : Option String
  branch_name : Option String
  email : Option String
  phone_number : Option String
  location : String
  description : Option String
  website : Option String
  is_online : Bool
  is_active : Bool
  profile_image : Option String
  header_image : Option String
  branch_type : Option String
  is_verified : Bool
  coordinates : Coordinates
  working_days : List WorkingDay
  products : List MergedProduct
  social_media : List SocialMediaLink
  time : String
  distance : Option ℚ
  deriving DecidableEq, Inhabited, Repr

/-- The mutable fields of `CompanyDataManager` (constructor, lines
5-15). -/
structure CacheState where
  companies : List Company
  branches : List Branch
  workingDays : List WorkingDay
  products : List Product
  socialMedia : List SocialMediaLink
  verifications : List Verification
  isLoading : Bool
  lastFetchTime : Option Int
  deriving DecidableEq, Inhabited, Repr

/-- The empty initial cache built by the constructor. -/
def initialState : CacheState :=
  { companies := [], branches := [], workingDays := [], products := [],
    socialMedia := [], verifications := [], isLoading := false, lastFetchTime := none }

/-- The constant `this.cacheTimeout = 5 * 60 * 1000` (line 14), in milliseconds. -/
def cacheTimeout : Int := 5 * 60 * 1000

/-- The verification record's company identifier: the fallback chain
`v.company_id || v.companyId || v.companyID || v.company` (line 183). -/
def verificationCompanyId (v : Verification) : Option String :=
  jsOrString (jsOrString (jsOrString v.company_id v.companyId) v.companyID) v.company

/-- The verification record's status: the fallback chain
`v.status || v.verification_status || v.verificationStatus` (line 187). -/
def verificationStatusOf (v : Verification) : Option String :=
  jsOrString (jsOrString v.status v.verification_status) v.verificationStatus

/-- Lines 181-189: find the first verification record whose resolved
company identifier equals the branch's `company_id`, and compare its
resolved status with the exact string literal. -/
def isVerifiedFor (verifications : List Verification) (companyId : Option String) : Bool :=
  match verifications.find? (fun v => verificationCompanyId v == companyId) with
  | some v => verificationStatusOf v == some ("verified")
  | none => false

/-- Lines 166-168: the working days attached to a branch's view. -/
def branchWorkingDays (st : CacheState) (branch : Branch) : List WorkingDay :=
  st.workingDays.filter (fun wd =>
    wd.branch_id == branch.branch_id || wd.company_id == branch.company_id)

/-- Lines 171-173: the products attached to a branch's view. -/
def branchProducts (st : CacheState) (branch : Branch) : List Product :=
  st.products.filter (fun p =>
    p.branch_id == branch.branch_id || p.company_id == branch.company_id)

/-- Lines 176-178: the social-media links attached to a branch's view. -/
def branchSocialMedia (st : CacheState) (branch : Branch) : List SocialMediaLink :=
  st.socialMedia.filter (fun sm =>
    sm.branch_id == branch.branch_id || sm.company_id == branch.company_id)

/-- The merged object literal of lines 208-235, for one branch and its
matching company; `r1`, `r2` are the coordinate jitter draws and `r3`
the time-text draw. -/
def mkMergedView (cfg : AppwriteConfig) (st : CacheState) (branch : Branch)
    (company : Company) (r1 r2 r3 : ℚ) : MergedCompanyView :=
  { id := branch.docId
    branch_id := branch.branch_id
    company_id := branch.company_id
    name := company.name
    branch_name := jsOrString branch.branch_name company.name
    email := branch.email
    phone_number := branch.phone_number
    location := jsOrDefault branch.location ("Location not specified")
    description := branch.description
    website := branch.website
    is_online := jsOrFalse branch.is_online
    is_active := jsOrFalse branch.is_active
    profile_image := branch.profile_image
    header_image := branch.header_image
    branch_type := branch.branch_type
    is_verified := isVerifiedFor st.verifications branch.company_id
    coordinates := generateCoordinates branch.location r1 r2
    working_days := branchWorkingDays st branch
    products := (branchProducts st branch).map
      (fun p => ⟨p, getProductImageUrl cfg p.product_image⟩)
    social_media := branchSocialMedia st branch
    time := generateTimeText r3
    distance := none }

/-- The branch loop of `mergeCompanyAndBranchData` (lines 160-239): for
each branch, `find` the first company with equal `company_id`; matched
branches produce one view (consuming three generator draws), unmatched
branches produce none.  `k` counts the views already produced, so the
k-th view uses draws `3k`, `3k+1`, `3k+2`. -/
def mergeAux (cfg : AppwriteConfig) (st : CacheState) (rnd : Nat → ℚ) :
    List Branch → Nat → List MergedCompanyView
  | [], _ => []
  | branch :: rest, k =>
    match st.companies.find? (fun c => c.company_id == branch.company_id) with
    | some company =>
      mkMergedView cfg st branch company (rnd (3 * k)) (rnd (3 * k + 1)) (rnd (3 * k + 2))
        :: mergeAux cfg st rnd rest (k + 1)
    | none => mergeAux cfg st rnd rest k

/-- Embedding of `mergeCompanyAndBranchData()` (lines 157-242). -/
def mergeCompanyAndBranchData (cfg : AppwriteConfig) (st : CacheState)
    (rnd : Nat → ℚ) : List MergedCompanyView :=
  mergeAux cfg st rnd st.branches 0

/-- Embedding of `getFallbackData()` (lines 268-271): always the empty list. -/
def getFallbackData : List MergedCompanyView := []

/-- Embedding of `getWorkingDaysForBranch(branchId)` (lines 309-313).  Note that the
code compares the record's `company_id` against the `branchId` argument
itself. -/
def getWorkingDaysForBranch (st : CacheState) (branchId : String) : List WorkingDay :=
  st.workingDays.filter (fun wd =>
    wd.branch_id == some branchId || wd.company_id == some branchId)

/-- Embedding of `getProductsForBranch(branchId)` (lines 321-325), same comparison
shape as `getWorkingDaysForBranch`. -/
def getProductsForBranch (st : CacheState) (branchId : String) : List Product :=
  st.products.filter (fun p =>
    p.branch_id == some branchId || p.company_id == some branchId)

/-- The JS lowercasing of `toLowerCase`, embedded as Lean's ASCII
`String.toLower`. -/
def jsToLower (s : String) : String := s.toLower

/-- JS `pre` being a prefix of `s`, on character lists. -/
def listStartsWith : List Char → List Char → Bool
  | _, [] => true
  | [], _ :: _ => false
  | a :: as, b :: bs => a == b && listStartsWith as bs

/-- JS `String.prototype.includes`: `sub` occurs contiguously in the
character list. -/
def listContainsSub (sub : List Char) : List Char → Bool
  | [] => sub.isEmpty
  | a :: rest => listStartsWith (a :: rest) sub || listContainsSub sub rest

/-- JS `s.includes(sub)` on strings. -/
def strIncludes (s sub : String) : Bool := listContainsSub sub.toList s.toList

/-- The filter predicate of `searchCompanies` (lines 292-295) evaluated
on one company, with the JS evaluation order: reading `.name` of a
record without a name throws (a `TypeError`, embedded as `.error ()`),
and the email side is only reached when the name side did not match. -/
def companyMatches (searchTerm : String) (c : Company) : Except Unit Bool :=
  match c.name with
  | none => .error ()
  | some n =>
    if strIncludes (jsToLower n) searchTerm then .ok true
    else
      match c.email with
      | none => .error ()
      | some e => .ok (strIncludes (jsToLower e) searchTerm)

/-- JS `Array.prototype.filter` with a throwing predicate: records are
tested left to right and the first throw aborts the whole call. -/
def searchFilter (searchTerm : String) : List Company → Except Unit (List Company)
  | [] => .ok []
  | c :: rest => do
    let keep ← companyMatches searchTerm c
    let tail ← searchFilter searchTerm rest
    pure (if keep then c :: tail else tail)

/-- Embedding of `searchCompanies(query)` (lines 290-296). -/
def searchCompanies (st : CacheState) (query : String) : Except Unit (List Company) :=
  searchFilter (jsToLower query) st.companies

/-- The behaviour of the remote store during one fan-out: each of the
six collection reads either yields its documents or fails (the
per-collection `try`/`catch` then degrades it to `[]`), and
`promiseAllOk` says whether the fan-in primitive itself succeeds. -/
structure StoreBehavior where
  companiesRes : Except Unit (List Company)
  branchesRes : Except Unit (List Branch)
  workingDaysRes : Except Unit (List WorkingDay)
  productsRes : Except Unit (List Product)
  socialMediaRes : Except Unit (List SocialMediaLink)
  verificationsRes : Except Unit (List Verification)
  promiseAllOk : Bool

/-- The per-collection `try`/`catch` of `fetchCompanies` ...
`fetchVerifications`: a failed read resolves to the empty list. -/
def resolveRead {α : Type} (r : Except Unit (List α)) : List α :=
  match r with
  | .ok l => l
  | .error _ => []

/-- The value `fetchCompanyData` returns.  The source function is
untyped and returns the raw `this.companies` array on the in-flight and
fresh-cache paths (lines 19 and 24) but an array of merged views on the
fetch path (line 54) and `getFallbackData()` in the `catch` (line 59);
the two shapes are kept apart by the constructors.  There is no error
constructor: the source never throws to its caller. -/
inductive FetchRet where
  | rawCompanies : List Company → FetchRet
  | mergedViews : List MergedCompanyView → FetchRet
  deriving DecidableEq, Inhabited

/-- Length of the returned sequence, whichever shape it has. -/
def FetchRet.seqLength : FetchRet → Nat
  | .rawCompanies l => l.length
  | .mergedViews l => l.length

/-- The outcome of one `fetchCompanyData` call: the returned value, the
state after the call, and how many reads were issued against each of
the six collections during the call. -/
structure FetchOutcome where
  ret : FetchRet
  state : CacheState
  readsPerCollection : Nat
  deriving DecidableEq, Inhabited

/-- The freshness test of line 22:
`this.lastFetchTime && (Date.now() - this.lastFetchTime < this.cacheTimeout)`.
A timestamp of `0` is falsy in JS, hence the extra disjunct. -/
def cacheFresh (st : CacheState) (now : Int) : Bool :=
  match st.lastFetchTime with
  | none => false
  | some t => if t = 0 then false else decide (now - t < cacheTimeout)

/-- Embedding of `fetchCompanyData()` (lines 18-63).  In-flight and fresh-cache
calls return the raw cached companies without touching the store; an
actual fetch issues one read per collection, and on fan-in success
atomically replaces all six collections (each failed read degraded to
`[]`), stamps the fetch time and returns the recomputed merged view; if
the fan-in primitive itself fails, the `catch` returns
`getFallbackData()` with the cache untouched.  The `finally` clears the
busy flag on every path. -/
def fetchCompanyData (cfg : AppwriteConfig) (st : CacheState) (store : StoreBehavior)
    (now : Int) (rnd : Nat → ℚ) : FetchOutcome :=
  if st.isLoading then ⟨.rawCompanies st.companies, st, 0⟩
  else if cacheFresh st now then ⟨.rawCompanies st.companies, st, 0⟩
  else if store.promiseAllOk then
    let st' : CacheState :=
      { companies := resolveRead store.companiesRes
        branches := resolveRead store.branchesRes
        workingDays := resolveRead store.workingDaysRes
        products := resolveRead store.productsRes
        socialMedia := resolveRead store.socialMediaRes
        verifications := resolveRead store.verificationsRes
        isLoading := false
        lastFetchTime := some now }
    ⟨.mergedViews (mergeCompanyAndBranchData cfg st' rnd), st', 1⟩
  else
    ⟨.mergedViews getFallbackData, { st with isLoading := false }, 1⟩

/-- Embedding of `refreshCompanyData()` (lines 274-277): clears the freshness
timestamp, then fetches. -/
def refreshCompanyData (cfg : AppwriteConfig) (st : CacheState) (store : StoreBehavior)
    (now : Int) (rnd : Nat → ℚ) : FetchOutcome :=
  fetchCompanyData cfg { st with lastFetchTime := none } store now rnd

/-! Concrete sample data used by the witnesses and counterexamples. -/

/-- A sample Appwrite configuration. -/
def sampleCfg : AppwriteConfig := ⟨"proj1", none⟩

/-- A constant random stream, for instantiating the generator. -/
def zeroRnd : Nat → ℚ := fun _ => 0

/-- The company of the spec's scenario: `{company_id:"c1",name:"Acme"}`. -/
def acmeCompany : Company :=
  { docId := "c1doc", company_id := some ("c1"), name := some ("Acme"),
    email := some ("acme@example.com") }

/-- The branch of the spec's scenario:
`{branch_id:"b1",company_id:"c1",is_active:true,location:"Accra, Ghana"}`. -/
def b1Branch : Branch :=
  { docId := "b1doc", branch_id := some ("b1"), company_id := some ("c1"),
    branch_name := none, email := none, phone_number := none,
    location := some ("Accra, Ghana"), description := none, website := none,
    is_online := none, is_active := some true, profile_image := none,
    header_image := none, branch_type := none }

/-- The scenario cache: one company, one matching branch, no children. -/
def scenarioState : CacheState :=
  { initialState with companies := [acmeCompany], branches := [b1Branch] }

/-! Helper lemmas about the merge loop. -/

/-- The `List.any` test agrees with `List.find?` producing a hit. -/
theorem any_eq_find?_isSome {α : Type} (p : α → Bool) :
    ∀ l : List α, l.any p = (l.find? p).isSome
  | [] => rfl
  | a :: l => by
    cases hp : p a <;>
      simp [List.any_cons, List.find?_cons, hp, any_eq_find?_isSome p l]

/-- Unfolding lemma for `mergeAux` on a branch with a matching company. -/
theorem mergeAux_cons_some (cfg : AppwriteConfig) (st : CacheState) (rnd : Nat → ℚ)
    (b : Branch) (rest : List Branch) (k : Nat) (company : Company)
    (h : st.companies.find? (fun c => c.company_id == b.company_id) = some company) :
    mergeAux cfg st rnd (b :: rest) k =
      mkMergedView cfg st b company (rnd (3 * k)) (rnd (3 * k + 1)) (rnd (3 * k + 2))
        :: mergeAux cfg st rnd rest (k + 1) := by
  simp [mergeAux, h]

/-- Unfolding lemma for `mergeAux` on a branch with no matching company. -/
theorem mergeAux_cons_none (cfg : AppwriteConfig) (st : CacheState) (rnd : Nat → ℚ)
    (b : Branch) (rest : List Branch) (k : Nat)
    (h : st.companies.find? (fun c => c.company_id == b.company_id) = none) :
    mergeAux cfg st rnd (b :: rest) k = mergeAux cfg st rnd rest k := by
  simp [mergeAux, h]

/-- Every element of `mergeAux` is the merged view of some listed branch
and its first matching company. -/
theorem mem_mergeAux (cfg : AppwriteConfig) (st : CacheState) (rnd : Nat → ℚ)
    (v : MergedCompanyView) :
    ∀ (bs : List Branch) (k : Nat), v ∈ mergeAux cfg st rnd bs k →
      ∃ b c j, b ∈ bs ∧
        st.companies.find? (fun c0 => c0.company_id == b.company_id) = some c ∧
        v = mkMergedView cfg st b c (rnd (3 * j)) (rnd (3 * j + 1)) (rnd (3 * j + 2))
  | [], _, hv => by simp [mergeAux] at hv
  | b :: rest, k, hv => by
    cases h : st.companies.find? (fun c0 => c0.company_id == b.company_id) with
    | some c =>
      rw [mergeAux_cons_some cfg st rnd b rest k c h] at hv
      rcases List.mem_cons.mp hv with hv1 | hv2
      · exact ⟨b, c, k, List.mem_cons_self b rest, h, hv1⟩
      · obtain ⟨b', c', j, hb', h', he⟩ := mem_mergeAux cfg st rnd v rest (k + 1) hv2
        exact ⟨b', c', j, List.mem_cons_of_mem b hb', h', he⟩
    | none =>
      rw [mergeAux_cons_none cfg st rnd b rest k h] at hv
      obtain ⟨b', c', j, hb', h', he⟩ := mem_mergeAux cfg st rnd v rest k hv
      exact ⟨b', c', j, List.mem_cons_of_mem b hb', h', he⟩

/-- Every element of the merged view sequence is built by
`mkMergedView` from a cached branch and its first matching company. -/
theorem mem_merge (cfg : AppwriteConfig) (st : CacheState) (rnd : Nat → ℚ)
    (v : MergedCompanyView) (hv : v ∈ mergeCompanyAndBranchData cfg st rnd) :
    ∃ b c j, b ∈ st.branches ∧
      st.companies.find? (fun c0 => c0.company_id == b.company_id) = some c ∧
      v = mkMergedView cfg st b c (rnd (3 * j)) (rnd (3 * j + 1)) (rnd (3 * j + 2)) :=
  mem_mergeAux cfg st rnd v st.branches 0 hv

/-- The ids of the views produced by `mergeAux` are exactly the document
ids of the branches with a matching company, in order. -/
theorem mergeAux_map_id (cfg : AppwriteConfig) (st : CacheState) (rnd : Nat → ℚ) :
    ∀ (bs : List Branch) (k : Nat),
      (mergeAux cfg st rnd bs k).map (fun v => v.id) =
        (bs.filter (fun b =>
          (st.companies.find? (fun c => c.company_id == b.company_id)).isSome)).map
          (fun b => b.docId)
  | [], _ => rfl
  | b :: rest, k => by
    cases h : st.companies.find? (fun c => c.company_id == b.company_id) with
    | some c =>
      rw [mergeAux_cons_some cfg st rnd b rest k c h]
      simp [List.filter_cons, h, mkMergedView, mergeAux_map_id cfg st rnd rest (k + 1)]
    | none =>
      rw [mergeAux_cons_none cfg st rnd b rest k h]
      simp [List.filter_cons, h, mergeAux_map_id cfg st rnd rest k]

/-- C1: for every cached set of companies and branches,
`mergeCompanyAndBranchData` returns exactly one `MergedCompanyView` per
branch whose `company_id` equals the `company_id` of some cached
company (the view's id being that branch's document id, in branch
order), and no view for a branch with no matching company. -/
theorem merge_one_view_per_matched_branch (cfg : AppwriteConfig) (st : CacheState)
    (rnd : Nat → ℚ) :
    (mergeCompanyAndBranchData cfg st rnd).map (fun v => v.id) =
      (st.branches.filter (fun b =>
        st.companies.any (fun c => c.company_id == b.company_id))).map
        (fun b => b.docId) := by
  rw [mergeCompanyAndBranchData, mergeAux_map_id cfg st rnd st.branches 0]
  have hp : ∀ b : Branch,
      (st.companies.any (fun c => c.company_id == b.company_id)) =
        (st.companies.find? (fun c => c.company_id == b.company_id)).isSome :=
    fun b => any_eq_find?_isSome _ st.companies
  simp [hp]

/-- C2: a branch's merged view is verified exactly when the first
verification record whose resolved company identifier (the
`company_id`/`companyId`/`companyID`/`company` fallback chain) equals
the branch's `company_id` has resolved status (the
`status`/`verification_status`/`verificationStatus` fallback chain)
exactly the string `verified`; any other status, or no matching record,
yields `false`. -/
theorem merged_view_verification (cfg : AppwriteConfig) (st : CacheState)
    (rnd : Nat → ℚ) (v : MergedCompanyView)
    (hv : v ∈ mergeCompanyAndBranchData cfg st rnd) :
    v.is_verified = true ↔
      ∃ w, st.verifications.find?
            (fun w0 => verificationCompanyId w0 == v.company_id) = some w ∧
        verificationStatusOf w = some ("verified") := by
  obtain ⟨b, c, j, hb, hc, he⟩ := mem_merge cfg st rnd v hv
  subst he
  show isVerifiedFor st.verifications b.company_id = true ↔ _
  cases h : st.verifications.find?
      (fun w0 => verificationCompanyId w0 == b.company_id) with
  | some w =>
    simp only [isVerifiedFor, h, mkMergedView]
    constructor
    · intro hw
      exact ⟨w, rfl, by simpa using hw⟩
    · rintro ⟨w', hw', hst⟩
      cases hw'
      simpa using hst
  | none =>
    simp only [isVerifiedFor, h, mkMergedView]
    constructor
    · intro hw
      exact absurd hw (by simp)
    · rintro ⟨w', hw', hst⟩
      cases hw'

/-- The verification record of the spec's scenario:
`{company_id:"c1",status:"verified"}`. -/
def verifiedRecord : Verification :=
  { docId := "v1doc", company_id := some ("c1"), companyId := none,
    companyID := none, company := none, status := some ("verified"),
    verification_status := none, verificationStatus := none }

/-- The scenario cache plus a matching verified record. -/
def verifiedState : CacheState :=
  { scenarioState with verifications := [verifiedRecord] }

/-- The single view the merge builds from `verifiedState`. -/
def verifiedView : MergedCompanyView :=
  (mergeCompanyAndBranchData sampleCfg verifiedState zeroRnd).headI

/-- Witness for C2: with a verification record for `c1` of status
`verified`, the merged view for branch `b1` is verified. -/
theorem merged_view_verification_witness : verifiedView.is_verified = true :=
  (merged_view_verification sampleCfg verifiedState zeroRnd verifiedView
      (List.mem_cons_self verifiedView [])).mpr ⟨verifiedRecord, rfl, rfl⟩

/-- C4: a child record attaches to a merged view exactly when its
`branch_id` equals the view's branch id (regardless of its
`company_id`) or its `company_id` equals the view's `company_id`;
either match alone suffices, for all three child collections. -/
theorem merged_view_children_attachment (cfg : AppwriteConfig) (st : CacheState)
    (rnd : Nat → ℚ) (v : MergedCompanyView)
    (hv : v ∈ mergeCompanyAndBranchData cfg st rnd) :
    (∀ wd : WorkingDay, wd ∈ v.working_days ↔
        wd ∈ st.workingDays ∧
          (wd.branch_id = v.branch_id ∨ wd.company_id = v.company_id)) ∧
    (∀ p : Product, (∃ mp, mp ∈ v.products ∧ mp.product = p) ↔
        p ∈ st.products ∧
          (p.branch_id = v.branch_id ∨ p.company_id = v.company_id)) ∧
    (∀ sm : SocialMediaLink, sm ∈ v.social_media ↔
        sm ∈ st.socialMedia ∧
          (sm.branch_id = v.branch_id ∨ sm.company_id = v.company_id)) := by
  obtain ⟨b, c, j, hb, hc, he⟩ := mem_merge cfg st rnd v hv
  subst he
  refine ⟨?_, ?_, ?_⟩
  · intro wd
    simp [mkMergedView, branchWorkingDays, List.mem_filter]
  · intro p
    simp only [mkMergedView]
    constructor
    · rintro ⟨mp, hmp, hprod⟩
      obtain ⟨a, ha, rfl⟩ := List.mem_map.mp hmp
      have hap : a = p := hprod
      subst hap
      rw [branchProducts, List.mem_filter] at ha
      refine ⟨ha.1, ?_⟩
      have := ha.2
      simpa using this
    · rintro ⟨hp, hmatch⟩
      refine ⟨⟨p, getProductImageUrl cfg p.product_image⟩,
        List.mem_map_of_mem _ ?_, rfl⟩
      rw [branchProducts, List.mem_filter]
      exact ⟨hp, by simpa using hmatch⟩
  · intro sm
    simp [mkMergedView, branchSocialMedia, List.mem_filter]

/-- A working day scoped only by company, to the scenario company. -/
def wdShared : WorkingDay :=
  { docId := "w1doc", branch_id := none, company_id := some ("c1") }

/-- A product scoped to branch `b1` (no company key). -/
def prodBranchKeyed : Product :=
  { docId := "p1doc", branch_id := some ("b1"), company_id := none,
    product_image := none }

/-- A product scoped only by company `c1` (no branch key). -/
def prodCompanyKeyed : Product :=
  { docId := "p2doc", branch_id := none, company_id := some ("c1"),
    product_image := none }

/-- A social-media link scoped only by company `c1`. -/
def smShared : SocialMediaLink :=
  { docId := "s1doc", branch_id := none, company_id := some ("c1") }

/-- The scenario cache extended with the three child records. -/
def childState : CacheState :=
  { scenarioState with
    workingDays := [wdShared]
    products := [prodBranchKeyed, prodCompanyKeyed]
    socialMedia := [smShared] }

/-- The single view the merge builds from `childState`. -/
def childView : MergedCompanyView :=
  (mergeCompanyAndBranchData sampleCfg childState zeroRnd).headI

/-- Witness for C4: the company-keyed working day attaches to the view
of branch `b1` although its `branch_id` does not match. -/
theorem merged_view_children_attachment_witness : wdShared ∈ childView.working_days :=
  ((merged_view_children_attachment sampleCfg childState zeroRnd childView
      (List.mem_cons_self childView [])).1 wdShared).mpr
    ⟨List.mem_cons_self wdShared [], Or.inr rfl⟩

/-- C10: every merged view has a `none` distance, and its display
fields fall back to fixed defaults exactly as the `||` chains dictate:
`branch_name` to the owning company's name, `location` to the fixed
string, `is_online` and `is_active` to `false`. -/
theorem merged_view_display_defaults (cfg : AppwriteConfig) (st : CacheState)
    (rnd : Nat → ℚ) (v : MergedCompanyView)
    (hv : v ∈ mergeCompanyAndBranchData cfg st rnd) :
    v.distance = none ∧
    ∃ b c, b ∈ st.branches ∧
      st.companies.find? (fun c0 => c0.company_id == b.company_id) = some c ∧
      v.branch_name = jsOrString b.branch_name c.name ∧
      v.location = jsOrDefault b.location ("Location not specified") ∧
      v.is_online = jsOrFalse b.is_online ∧
      v.is_active = jsOrFalse b.is_active ∧
      ((b.branch_name = none ∨ b.branch_name = some ("")) → v.branch_name = c.name) ∧
      ((b.location = none ∨ b.location = some ("")) →
        v.location = ("Location not specified")) ∧
      ((b.is_online = none ∨ b.is_online = some false) → v.is_online = false) ∧
      ((b.is_active = none ∨ b.is_active = some false) → v.is_active = false) := by
  obtain ⟨b, c, j, hb, hc, he⟩ := mem_merge cfg st rnd v hv
  subst he
  refine ⟨rfl, b, c, hb, hc, rfl, rfl, rfl, rfl, ?_, ?_, ?_, ?_⟩
  · rintro (h | h) <;> simp [mkMergedView, jsOrString, h]
  · rintro (h | h) <;> simp [mkMergedView, jsOrDefault, h]
  · rintro (h | h) <;> simp [mkMergedView, jsOrFalse, h]
  · rintro (h | h) <;> simp [mkMergedView, jsOrFalse, h]

/-- The single view the merge builds from the plain scenario cache. -/
def scenarioView : MergedCompanyView :=
  (mergeCompanyAndBranchData sampleCfg scenarioState zeroRnd).headI

/-- Witness for C10: the scenario view has a `none` distance. -/
theorem merged_view_display_defaults_witness : scenarioView.distance = none :=
  (merged_view_display_defaults sampleCfg scenarioState zeroRnd scenarioView
      (List.mem_cons_self scenarioView [])).1

/-- C8: on the scenario cache (Acme company, branch `b1` in
`Accra, Ghana`, no children) the merge yields, for every random stream,
exactly one view with the looked-up coordinates and `is_verified`
false; a location hit in the lookup table is returned unchanged for
every pair of draws; and for a location outside the table the result is
the base coordinate jittered by at most `1` in magnitude in each
component, for draws in `[0, 1)`. -/
theorem generateCoordinates_spec :
    (∀ rnd : Nat → ℚ,
      (mergeCompanyAndBranchData sampleCfg scenarioState rnd).map
        (fun v => (v.coordinates, v.is_verified)) = [(⟨5.6037, -0.1870⟩, false)]) ∧
    (∀ (loc : String) (c : Coordinates), locationCoords loc = some c →
      ∀ r1 r2 : ℚ, generateCoordinates (some loc) r1 r2 = c) ∧
    (∀ (loc : String) (r1 r2 : ℚ), locationCoords loc = none →
      0 ≤ r1 → r1 < 1 → 0 ≤ r2 → r2 < 1 →
      |(generateCoordinates (some loc) r1 r2).lat - 5.6037| ≤ 1 ∧
      |(generateCoordinates (some loc) r1 r2).lng - (-0.1870)| ≤ 1) := by
  refine ⟨fun _ => rfl, ?_, ?_⟩
  · intro loc c h r1 r2
    simp [generateCoordinates, Option.bind, h]
  · intro loc r1 r2 h h1 h2 h3 h4
    simp only [generateCoordinates, Option.bind, h]
    constructor
    · rw [abs_le]
      constructor <;> linarith
    · rw [abs_le]
      constructor <;> linarith

/-- Witness for C8: a table hit for Tema, and a bounded jitter for an
unknown location at draws `1/4`, `3/4`. -/
theorem generateCoordinates_witness :
    generateCoordinates (some ("Tema, Ghana")) 0 0 = ⟨5.6699, -0.0166⟩ ∧
    |(generateCoordinates (some ("Nowhere, Atlantis")) (1/4) (3/4)).lat - 5.6037| ≤ 1 :=
  ⟨generateCoordinates_spec.2.1 ("Tema, Ghana") ⟨5.6699, -0.0166⟩ rfl 0 0,
    (generateCoordinates_spec.2.2 ("Nowhere, Atlantis") (1/4) (3/4) rfl
      (by norm_num) (by norm_num) (by norm_num) (by norm_num)).1⟩

/-! The fetch path: claims about `fetchCompanyData`. -/

/-- A cache holding one company, no branches, and a fresh timestamp. -/
def staleMergeState : CacheState :=
  { initialState with companies := [acmeCompany], lastFetchTime := some 1000 }

/-- A store where every read succeeds with no documents. -/
def emptyOkStore : StoreBehavior :=
  ⟨.ok [], .ok [], .ok [], .ok [], .ok [], .ok [], true⟩

/-- Counterexample to C3: at `staleMergeState` within the freshness
window, `fetchCompanyData` issues no store read but returns a sequence
of length 1 (the raw cached companies) while the merged view recomputed
from the cached collections is empty, so the returned sequence is not
the cached merged view. -/
theorem fetch_cached_returns_raw_counterexample :
    (fetchCompanyData sampleCfg staleMergeState emptyOkStore 1001 zeroRnd).readsPerCollection
        = 0 ∧
    FetchRet.seqLength
        (fetchCompanyData sampleCfg staleMergeState emptyOkStore 1001 zeroRnd).ret = 1 ∧
    (mergeCompanyAndBranchData sampleCfg staleMergeState zeroRnd).length = 0 ∧
    (fetchCompanyData sampleCfg staleMergeState emptyOkStore 1001 zeroRnd).ret
        ≠ .mergedViews (mergeCompanyAndBranchData sampleCfg staleMergeState zeroRnd) := by
  refine ⟨rfl, rfl, rfl, ?_⟩
  intro h
  exact FetchRet.noConfusion h

/-- C3 (amended): an in-flight or fresh-cache call returns the raw
cached companies collection (not the merged view) and issues no store
read; two `fetchCompanyData` calls within the freshness window, the
first completing its fan-in successfully, issue exactly one read per
collection in total. -/
theorem fetch_cached_raw_and_single_read :
    (∀ (cfg : AppwriteConfig) (st : CacheState) (store : StoreBehavior)
        (now : Int) (rnd : Nat → ℚ), st.isLoading = true →
      fetchCompanyData cfg st store now rnd = ⟨.rawCompanies st.companies, st, 0⟩) ∧
    (∀ (cfg : AppwriteConfig) (st : CacheState) (store : StoreBehavior)
        (now : Int) (rnd : Nat → ℚ), cacheFresh st now = true →
      st.isLoading = false →
      fetchCompanyData cfg st store now rnd = ⟨.rawCompanies st.companies, st, 0⟩) ∧
    (∀ (cfg : AppwriteConfig) (st : CacheState) (store1 store2 : StoreBehavior)
        (now1 now2 : Int) (rnd1 rnd2 : Nat → ℚ),
      st.isLoading = false → cacheFresh st now1 = false →
      store1.promiseAllOk = true → now1 ≠ 0 → now2 - now1 < cacheTimeout →
      (fetchCompanyData cfg st store1 now1 rnd1).readsPerCollection = 1 ∧
      (fetchCompanyData cfg (fetchCompanyData cfg st store1 now1 rnd1).state
          store2 now2 rnd2).readsPerCollection = 0) := by
  refine ⟨?_, ?_, ?_⟩
  · intro cfg st store now rnd h
    simp [fetchCompanyData, h]
  · intro cfg st store now rnd hfresh hload
    simp [fetchCompanyData, hfresh, hload]
  · intro cfg st store1 store2 now1 now2 rnd1 rnd2 hload hfresh hok hnz hwin
    have h1 : fetchCompanyData cfg st store1 now1 rnd1 =
        ⟨.mergedViews (mergeCompanyAndBranchData cfg
            { companies := resolveRead store1.companiesRes
              branches := resolveRead store1.branchesRes
              workingDays := resolveRead store1.workingDaysRes
              products := resolveRead store1.productsRes
              socialMedia := resolveRead store1.socialMediaRes
              verifications := resolveRead store1.verificationsRes
              isLoading := false
              lastFetchTime := some now1 } rnd1),
          { companies := resolveRead store1.companiesRes
            branches := resolveRead store1.branchesRes
            workingDays := resolveRead store1.workingDaysRes
            products := resolveRead store1.productsRes
            socialMedia := resolveRead store1.socialMediaRes
            verifications := resolveRead store1.verificationsRes
            isLoading := false
            lastFetchTime := some now1 }, 1⟩ := by
      simp [fetchCompanyData, hload, hfresh, hok]
    refine ⟨by rw [h1], ?_⟩
    rw [h1]
    have h2 : cacheFresh
        { companies := resolveRead store1.companiesRes
          branches := resolveRead store1.branchesRes
          workingDays := resolveRead store1.workingDaysRes
          products := resolveRead store1.productsRes
          socialMedia := resolveRead store1.socialMediaRes
          verifications := resolveRead store1.verificationsRes
          isLoading := false
          lastFetchTime := some now1 } now2 = true := by
      simp [cacheFresh, hnz, hwin]
    simp [fetchCompanyData, h2]

/-- Witness for C3 (amended): a concrete fresh-cache call returns the
raw companies with zero reads, and a concrete cold-state call followed
by a call one millisecond later issues one read per collection. -/
theorem fetch_cached_raw_and_single_read_witness :
    fetchCompanyData sampleCfg staleMergeState emptyOkStore 1001 zeroRnd
        = ⟨.rawCompanies staleMergeState.companies, staleMergeState, 0⟩ ∧
    (fetchCompanyData sampleCfg initialState emptyOkStore 1000 zeroRnd).readsPerCollection
        = 1 ∧
    (fetchCompanyData sampleCfg
        (fetchCompanyData sampleCfg initialState emptyOkStore 1000 zeroRnd).state
        emptyOkStore 1001 zeroRnd).readsPerCollection = 0 :=
  ⟨fetch_cached_raw_and_single_read.2.1 sampleCfg staleMergeState emptyOkStore 1001
      zeroRnd rfl rfl,
    fetch_cached_raw_and_single_read.2.2 sampleCfg initialState emptyOkStore
      emptyOkStore 1000 1001 zeroRnd zeroRnd rfl rfl rfl (by decide) (by decide)⟩

/-- A store whose fan-in primitive itself fails. -/
def brokenFanInStore : StoreBehavior :=
  ⟨.ok [], .ok [], .ok [], .ok [], .ok [], .ok [], false⟩

/-- C5: when the fan-in primitive itself fails, `fetchCompanyData`
returns the empty fallback sequence and leaves the six cached
collections and the freshness timestamp untouched; and on every input
it returns a sequence (the raw companies or some merged list), never an
error. -/
theorem fetch_never_propagates_failure :
    (∀ (cfg : AppwriteConfig) (st : CacheState) (store : StoreBehavior)
        (now : Int) (rnd : Nat → ℚ),
      st.isLoading = false → cacheFresh st now = false → store.promiseAllOk = false →
      (fetchCompanyData cfg st store now rnd).ret = .mergedViews getFallbackData ∧
      (fetchCompanyData cfg st store now rnd).state.companies = st.companies ∧
      (fetchCompanyData cfg st store now rnd).state.branches = st.branches ∧
      (fetchCompanyData cfg st store now rnd).state.workingDays = st.workingDays ∧
      (fetchCompanyData cfg st store now rnd).state.products = st.products ∧
      (fetchCompanyData cfg st store now rnd).state.socialMedia = st.socialMedia ∧
      (fetchCompanyData cfg st store now rnd).state.verifications = st.verifications ∧
      (fetchCompanyData cfg st store now rnd).state.lastFetchTime = st.lastFetchTime) ∧
    (∀ (cfg : AppwriteConfig) (st : CacheState) (store : StoreBehavior)
        (now : Int) (rnd : Nat → ℚ),
      (fetchCompanyData cfg st store now rnd).ret = .rawCompanies st.companies ∨
      ∃ l, (fetchCompanyData cfg st store now rnd).ret = .mergedViews l) := by
  refine ⟨?_, ?_⟩
  · intro cfg st store now rnd hload hfresh hok
    simp [fetchCompanyData, hload, hfresh, hok]
  · intro cfg st store now rnd
    by_cases hload : st.isLoading
    · left
      simp [fetchCompanyData, hload]
    · by_cases hfresh : cacheFresh st now
      · left
        simp [fetchCompanyData, hload, hfresh]
      · by_cases hok : store.promiseAllOk
        · right
          have h1 : (fetchCompanyData cfg st store now rnd).ret =
              .mergedViews (mergeCompanyAndBranchData cfg
                { companies := resolveRead store.companiesRes
                  branches := resolveRead store.branchesRes
                  workingDays := resolveRead store.workingDaysRes
                  products := resolveRead store.productsRes
                  socialMedia := resolveRead store.socialMediaRes
                  verifications := resolveRead store.verificationsRes
                  isLoading := false
                  lastFetchTime := some now } rnd) := by
            simp [fetchCompanyData, hload, hfresh, hok]
          exact ⟨_, h1⟩
        · right
          refine ⟨getFallbackData, ?_⟩
          simp [fetchCompanyData, hload, hfresh, hok]

/-- Witness for C5: the broken-fan-in store at a concrete stale cache
yields the empty fallback and leaves the cached companies in place. -/
theorem fetch_never_propagates_failure_witness :
    (fetchCompanyData sampleCfg staleMergeState brokenFanInStore 999999 zeroRnd).ret
        = .mergedViews getFallbackData ∧
    (fetchCompanyData sampleCfg staleMergeState brokenFanInStore 999999 zeroRnd).state.companies
        = staleMergeState.companies :=
  ⟨(fetch_never_propagates_failure.1 sampleCfg staleMergeState brokenFanInStore 999999
      zeroRnd rfl (by decide) rfl).1,
    (fetch_never_propagates_failure.1 sampleCfg staleMergeState brokenFanInStore 999999
      zeroRnd rfl (by decide) rfl).2.1⟩

/-- C6: a fetch in which only the branches read fails resolves that
collection to empty, still populates the other five, completes, and
returns the merged view computed with an empty branch set (hence the
empty sequence); a subsequent forced `refreshCompanyData` whose reads
all succeed recovers the full data. -/
theorem fetch_branch_failure_degrades (cfg : AppwriteConfig) (st : CacheState)
    (now : Int) (rnd : Nat → ℚ) (cs : List Company) (ws : List WorkingDay)
    (ps : List Product) (ss : List SocialMediaLink) (vs : List Verification)
    (hload : st.isLoading = false) (hfresh : cacheFresh st now = false) :
    (fetchCompanyData cfg st ⟨.ok cs, .error (), .ok ws, .ok ps, .ok ss, .ok vs, true⟩
        now rnd).state.branches = [] ∧
    (fetchCompanyData cfg st ⟨.ok cs, .error (), .ok ws, .ok ps, .ok ss, .ok vs, true⟩
        now rnd).state.companies = cs ∧
    (fetchCompanyData cfg st ⟨.ok cs, .error (), .ok ws, .ok ps, .ok ss, .ok vs, true⟩
        now rnd).state.workingDays = ws ∧
    (fetchCompanyData cfg st ⟨.ok cs, .error (), .ok ws, .ok ps, .ok ss, .ok vs, true⟩
        now rnd).state.products = ps ∧
    (fetchCompanyData cfg st ⟨.ok cs, .error (), .ok ws, .ok ps, .ok ss, .ok vs, true⟩
        now rnd).state.socialMedia = ss ∧
    (fetchCompanyData cfg st ⟨.ok cs, .error (), .ok ws, .ok ps, .ok ss, .ok vs, true⟩
        now rnd).state.verifications = vs ∧
    (fetchCompanyData cfg st ⟨.ok cs, .error (), .ok ws, .ok ps, .ok ss, .ok vs, true⟩
        now rnd).ret = .mergedViews [] ∧
    (∀ (cs2 : List Company) (bs2 : List Branch) (ws2 : List WorkingDay)
        (ps2 : List Product) (ss2 : List SocialMediaLink) (vs2 : List Verification)
        (now2 : Int) (rnd2 : Nat → ℚ),
      (refreshCompanyData cfg
          (fetchCompanyData cfg st ⟨.ok cs, .error (), .ok ws, .ok ps, .ok ss, .ok vs, true⟩
            now rnd).state
          ⟨.ok cs2, .ok bs2, .ok ws2, .ok ps2, .ok ss2, .ok vs2, true⟩
          now2 rnd2).state =
        ⟨cs2, bs2, ws2, ps2, ss2, vs2, false, some now2⟩ ∧
      (refreshCompanyData cfg
          (fetchCompanyData cfg st ⟨.ok cs, .error (), .ok ws, .ok ps, .ok ss, .ok vs, true⟩
            now rnd).state
          ⟨.ok cs2, .ok bs2, .ok ws2, .ok ps2, .ok ss2, .ok vs2, true⟩
          now2 rnd2).ret =
        .mergedViews (mergeCompanyAndBranchData cfg
          ⟨cs2, bs2, ws2, ps2, ss2, vs2, false, some now2⟩ rnd2)) := by
  have h1 : fetchCompanyData cfg st
      ⟨.ok cs, .error (), .ok ws, .ok ps, .ok ss, .ok vs, true⟩ now rnd =
      ⟨.mergedViews (mergeCompanyAndBranchData cfg
          ⟨cs, [], ws, ps, ss, vs, false, some now⟩ rnd),
        ⟨cs, [], ws, ps, ss, vs, false, some now⟩, 1⟩ := by
    simp [fetchCompanyData, hload, hfresh, resolveRead]
  rw [h1]
  have hempty : mergeCompanyAndBranchData cfg
      ⟨cs, [], ws, ps, ss, vs, false, some now⟩ rnd = [] := rfl
  refine ⟨rfl, rfl, rfl, rfl, rfl, rfl, by rw [hempty], ?_⟩
  intro cs2 bs2 ws2 ps2 ss2 vs2 now2 rnd2
  have h2 : refreshCompanyData cfg ⟨cs, [], ws, ps, ss, vs, false, some now⟩
      ⟨.ok cs2, .ok bs2, .ok ws2, .ok ps2, .ok ss2, .ok vs2, true⟩ now2 rnd2 =
      ⟨.mergedViews (mergeCompanyAndBranchData cfg
          ⟨cs2, bs2, ws2, ps2, ss2, vs2, false, some now2⟩ rnd2),
        ⟨cs2, bs2, ws2, ps2, ss2, vs2, false, some now2⟩, 1⟩ := by
    simp [refreshCompanyData, fetchCompanyData, cacheFresh, resolveRead]
  rw [h2]
  exact ⟨rfl, rfl⟩

/-- Witness for C6: concretely, a failed branches read at the cold
initial state yields an empty branch set, a populated company slice and
the empty merged sequence, and a forced refresh with all reads
succeeding recovers the scenario data. -/
theorem fetch_branch_failure_degrades_witness :
    (fetchCompanyData sampleCfg initialState
        ⟨.ok [acmeCompany], .error (), .ok [], .ok [], .ok [], .ok [], true⟩
        1000 zeroRnd).state.branches = [] ∧
    (fetchCompanyData sampleCfg initialState
        ⟨.ok [acmeCompany], .error (), .ok [], .ok [], .ok [], .ok [], true⟩
        1000 zeroRnd).state.companies = [acmeCompany] ∧
    (fetchCompanyData sampleCfg initialState
        ⟨.ok [acmeCompany], .error (), .ok [], .ok [], .ok [], .ok [], true⟩
        1000 zeroRnd).ret = .mergedViews [] ∧
    (refreshCompanyData sampleCfg
        (fetchCompanyData sampleCfg initialState
          ⟨.ok [acmeCompany], .error (), .ok [], .ok [], .ok [], .ok [], true⟩
          1000 zeroRnd).state
        ⟨.ok [acmeCompany], .ok [b1Branch], .ok [], .ok [], .ok [], .ok [], true⟩
        2000 zeroRnd).state.branches = [b1Branch] := by
  have h := fetch_branch_failure_degrades sampleCfg initialState 1000 zeroRnd
    [acmeCompany] [] [] [] [] rfl rfl
  exact ⟨h.1, h.2.1, h.2.2.2.2.2.2.1,
    by rw [(h.2.2.2.2.2.2.2 [acmeCompany] [b1Branch] [] [] [] [] 2000 zeroRnd).1]⟩

/-! The per-branch accessors: claims about `getWorkingDaysForBranch`
and `getProductsForBranch`. -/

/-- Counterexample to C7: on `childState`, the merge attaches the
company-keyed working day and both products to branch `b1`'s view, but
`getWorkingDaysForBranch("b1")` returns nothing and
`getProductsForBranch("b1")` returns only the branch-keyed product,
because both accessors compare the record's `company_id` against the
branch id argument itself rather than against the branch's
`company_id`. -/
theorem accessor_not_merge_rule_counterexample :
    (mergeCompanyAndBranchData sampleCfg childState zeroRnd).map
        (fun v => v.working_days) = [[wdShared]] ∧
    getWorkingDaysForBranch childState ("b1") = [] ∧
    (mergeCompanyAndBranchData sampleCfg childState zeroRnd).map
        (fun v => v.products.map (fun mp => mp.product))
      = [[prodBranchKeyed, prodCompanyKeyed]] ∧
    getProductsForBranch childState ("b1") = [prodBranchKeyed] :=
  ⟨rfl, rfl, rfl, rfl⟩

/-- C7 (amended): `getWorkingDaysForBranch(b)` and
`getProductsForBranch(b)` return exactly the cached records whose
`branch_id` equals `b` or whose `company_id` equals `b` itself (the
argument), not the records the merge attaches to branch `b`'s view. -/
theorem accessor_dual_key_on_argument (st : CacheState) (branchId : String) :
    (∀ wd : WorkingDay, wd ∈ getWorkingDaysForBranch st branchId ↔
        wd ∈ st.workingDays ∧
          (wd.branch_id = some branchId ∨ wd.company_id = some branchId)) ∧
    (∀ p : Product, p ∈ getProductsForBranch st branchId ↔
        p ∈ st.products ∧
          (p.branch_id = some branchId ∨ p.company_id = some branchId)) := by
  constructor
  · intro wd
    simp [getWorkingDaysForBranch, List.mem_filter]
  · intro p
    simp [getProductsForBranch, List.mem_filter]

/-! The search accessor: claim about `searchCompanies`. -/

/-- The filter predicate of `searchCompanies` as a total function,
defined when name and email are present. -/
def searchPred (query : String) (c : Company) : Bool :=
  strIncludes (jsToLower (c.name.getD (""))) (jsToLower query) ||
    strIncludes (jsToLower (c.email.getD (""))) (jsToLower query)

/-- On companies with both fields present, the throwing filter agrees
with the total filter. -/
theorem searchFilter_ok (term : String) :
    ∀ cs : List Company, (∀ c ∈ cs, c.name.isSome = true ∧ c.email.isSome = true) →
      searchFilter term cs = .ok (cs.filter (fun c =>
        strIncludes (jsToLower (c.name.getD (""))) term ||
          strIncludes (jsToLower (c.email.getD (""))) term))
  | [], _ => rfl
  | c :: rest, h => by
    obtain ⟨hn, he⟩ := h c (List.mem_cons_self c rest)
    obtain ⟨n, hn'⟩ := Option.isSome_iff_exists.mp hn
    obtain ⟨e, he'⟩ := Option.isSome_iff_exists.mp he
    have hmatch : companyMatches term c =
        .ok (strIncludes (jsToLower (c.name.getD (""))) term ||
          strIncludes (jsToLower (c.email.getD (""))) term) := by
      rw [companyMatches, hn', he']
      by_cases hcase : strIncludes (jsToLower n) term
      · simp [hcase, hn']
      · simp [hcase, hn', he']
    have ih := searchFilter_ok term rest (fun c0 hc0 => h c0 (List.mem_cons_of_mem c hc0))
    rw [searchFilter, hmatch]
    simp only [Except.bind, bind, ih]
    rw [List.filter_cons]
    by_cases hcase : strIncludes (jsToLower (c.name.getD (""))) term ||
        strIncludes (jsToLower (c.email.getD (""))) term
    · simp [hcase]
      rfl
    · simp [hcase]
      rfl

/-- A cached company with no `name` and no `email` field. -/
def noNameCompany : Company :=
  { docId := "cxdoc", company_id := some ("cx"), name := none, email := none }

/-- A cache whose companies slice contains `noNameCompany`. -/
def badSearchState : CacheState :=
  { initialState with companies := [noNameCompany] }

/-- A cache whose single company has both searchable fields. -/
def goodSearchState : CacheState :=
  { initialState with companies := [acmeCompany] }

/-- C9: when every cached company has string name and email fields,
`searchCompanies` returns exactly the companies whose lowercased name
or email contains the lowercased query; and on a cache containing a
company without those fields it throws instead of returning. -/
theorem searchCompanies_spec :
    (∀ (st : CacheState) (q : String),
      (∀ c ∈ st.companies, c.name.isSome = true ∧ c.email.isSome = true) →
      searchCompanies st q = .ok (st.companies.filter (searchPred q))) ∧
    searchCompanies badSearchState ("x") = .error () := by
  constructor
  · intro st q h
    rw [searchCompanies, searchFilter_ok (jsToLower q) st.companies h]
    rfl
  · rfl

/-- Witness for C9: a concrete search over the well-formed cache
returns the matching company. -/
theorem searchCompanies_spec_witness :
    searchCompanies goodSearchState ("ACM")
      = .ok (goodSearchState.companies.filter (searchPred ("ACM"))) :=
  searchCompanies_spec.1 goodSearchState ("ACM") (by decide)

end Phluowise
